import Mathlib

/-!
Shallow embedding of plotclip.py (transformer-plotclip) for checking its
natural-language specification.  Python strings are modelled as List Char
where slicing and splitting matter, and as String elsewhere.  External
collaborators (the GDAL/OGR geometry engine, the file system, the
configuration module constants, timestamps) are passed in as explicit
parameters.  Python dicts are modelled as insertion-ordered association
lists with unique keys.
-/

/-- Python exception values raised by the modelled code paths. -/
inductive PyError where
  | runtimeError : String → PyError
  | valueError : String → PyError
  | typeError : String → PyError
  | zeroDivisionError : PyError
  deriving DecidableEq, Repr

/-- Python s.lower() on a character list (plotclip.py line 49). -/
def pyLower (s : List Char) : List Char := s.map Char.toLower

/-- Python s.split(sep, 1) when it yields exactly two parts; none when sep is
absent, in which case the two-target unpacking at line 48 raises ValueError. -/
def pySplit1 (sep : Char) : List Char → Option (List Char × List Char)
  | [] => none
  | c :: rest =>
    if c = sep then some ([], rest)
    else
      match pySplit1 sep rest with
      | some (front, back) => some (c :: front, back)
      | none => none

/-- Python s.strip(c): remove every leading and trailing occurrence of the
character c (plotclip.py line 50). -/
def pyStrip (c : Char) (s : List Char) : List Char :=
  ((s.dropWhile (fun d => d == c)).reverse.dropWhile (fun d => d == c)).reverse

/-- Numeric value of a list of decimal digit characters. -/
def digitsToNat (s : List Char) : Nat :=
  s.foldl (fun acc c => acc * 10 + (c.toNat - 48)) 0

/-- Python int(s) restricted to non-negative decimal numerals, the only form
this program feeds it; any other string raises ValueError (modelled none).
Sign, whitespace and underscore forms of int() are not used by the source. -/
def pyInt? (s : List Char) : Option Nat :=
  if s ≠ [] ∧ s.all Char.isDigit then some (digitsToNat s) else none

/-- Python dict[k] / the k-in-dict test, on an ordered association list. -/
def lookupDict {α : Type} : List (String × α) → String → Option α
  | [], _ => none
  | (k', v) :: rest, k => if k' = k then some v else lookupDict rest k

/-- Python dict[k] = v: replace the value in place when the key is present,
otherwise append the new binding at the end. -/
def dictInsert {α : Type} : List (String × α) → String → α → List (String × α)
  | [], k, v => [(k, v)]
  | (k', v') :: rest, k, v =>
    if k' = k then (k, v) :: rest else (k', v') :: dictInsert rest k v

/-- Python dict.pop(k, None): drop the binding for k when present. -/
def pyPop {α : Type} : List (String × α) → String → List (String × α)
  | [], _ => []
  | (k', v) :: rest, k => if k' = k then rest else (k', v) :: pyPop rest k

/-- GeoJSON crs clause as read by get_sr_from_crs (lines 31-68): the optional
'type' key and the optional properties.name / properties.code string values
(none models a missing key, covering the missing-'properties' case too). -/
structure CrsClause where
  ctype : Option (List Char)
  props_name : Option (List Char)
  props_code : Option (List Char)
  deriving DecidableEq

/-- Models get_sr_from_crs (plotclip.py lines 31-68).  The external
osr.SpatialReference is identified by the EPSG code it was loaded from, and
importFromEPSG reports whether the external ImportFromEPSG call succeeds for
a given code.  Line 47 of the source drops the first
len('urn:ogc:def:crs:') = 16 characters of properties.name without checking
that they actually equal that string. -/
def get_sr_from_crs (importFromEPSG : Nat → Bool) (crs : CrsClause) : Except PyError Nat :=
  match crs.ctype with
  | none => Except.error (PyError.runtimeError "GeoJSON crs type not specified")
  | some t =>
    let parsed : Except PyError (List Char × List Char) :=
      if t = "name".toList then
        match crs.props_name with
        | none =>
          Except.error (PyError.runtimeError "Unknown named format specification in GeoJSON crs")
        | some nm =>
          match pySplit1 ':' (nm.drop ("urn:ogc:def:crs:".toList.length)) with
          | none => Except.error (PyError.valueError "not enough values to unpack")
          | some (st, sd) => Except.ok (pyLower st, pyStrip ':' sd)
      else
        match crs.props_code with
        | none =>
          Except.error (PyError.runtimeError "Unknown EPSG format specification in GeoJSON crs")
        | some cd => Except.ok (pyLower t, cd)
    match parsed with
    | Except.error e => Except.error e
    | Except.ok (sr_type, sr_def) =>
      if sr_type = "epsg".toList then
        match pyInt? sr_def with
        | none => Except.error (PyError.valueError "invalid literal for int with base 10")
        | some code =>
          if importFromEPSG code then Except.ok code
          else Except.error (PyError.runtimeError "Unable to load EPSG code from GeoJSON crs")
      else if sr_type = "ogc".toList then
        if importFromEPSG 4326 then Except.ok 4326
        else Except.error (PyError.runtimeError "Unable to load default OGC from GeoJSON crs")
      else Except.error (PyError.runtimeError "Spatial reference type is currently not supported")

theorem pySplit1_append (sep : Char) (a r : List Char) (h : sep ∉ a) :
    pySplit1 sep (a ++ sep :: r) = some (a, r) := by
  induction a with
  | nil => simp [pySplit1]
  | cons c a' ih =>
    have hc : ¬ c = sep := fun hcs => h (hcs ▸ List.mem_cons_self c a')
    have ha' : sep ∉ a' := fun hm => h (List.mem_cons_of_mem c hm)
    simp [pySplit1, hc, ih ha']

theorem dropWhile_eq_self_of_none {p : Char → Bool} {l : List Char}
    (h : ∀ c ∈ l, p c = false) : l.dropWhile p = l := by
  cases l with
  | nil => rfl
  | cons c t => simp [List.dropWhile_cons, h c (List.mem_cons_self c t)]

theorem pyStrip_cons_of_not_mem (c : Char) (s : List Char) (h : c ∉ s) :
    pyStrip c (c :: s) = s := by
  have hall : ∀ d ∈ s, (d == c) = false := by
    intro d hd
    exact beq_eq_false_iff_ne.mpr (fun he => h (he ▸ hd))
  unfold pyStrip
  rw [List.dropWhile_cons]
  simp only [beq_self_eq_true, if_true]
  rw [dropWhile_eq_self_of_none hall,
    dropWhile_eq_self_of_none (fun d hd => hall d (List.mem_reverse.mp hd)),
    List.reverse_reverse]

theorem not_colon_mem_of_pyLower_epsg {a : List Char} (h : pyLower a = "epsg".toList) :
    ':' ∉ a := by
  intro hm
  have h1 : Char.toLower ':' ∈ pyLower a := List.mem_map_of_mem Char.toLower hm
  rw [h] at h1
  have h2 : Char.toLower ':' = ':' := by decide
  rw [h2] at h1
  revert h1
  decide

theorem not_colon_mem_of_all_digit {ds : List Char} (h : ds.all Char.isDigit = true) :
    ':' ∉ ds := by
  intro hm
  have h2 : Char.isDigit ':' = true := by
    have := List.all_eq_true.mp h
    exact this ':' hm
  exact absurd h2 (by decide)

theorem pyInt?_digits {ds : List Char} (hne : ds ≠ []) (hdig : ds.all Char.isDigit = true) :
    pyInt? ds = some (digitsToNat ds) := by
  unfold pyInt?
  rw [if_pos ⟨hne, hdig⟩]

/-- C3 (amended): for a crs clause with type "name", a name of the shape
urn:ogc:def:crs:AUTHORITY::CODE where AUTHORITY lower-cases to epsg, an empty
version field, and a numeric CODE resolves to CODE.  The prefix is never
validated and a nonempty version field is not ignored: a name lacking the
prefix and too short to split (such as "EPSG:4326") raises a ValueError from
tuple unpacking rather than the RuntimeError/ConfigurationError family, and a
well-formed name with a nonempty version (such as "urn:ogc:def:crs:EPSG:0:32612")
raises a ValueError from int() instead of resolving. -/
theorem c3_crs_name_resolution_amended
    (importFromEPSG : Nat → Bool) (a ds : List Char)
    (ha : pyLower a = "epsg".toList) (hne : ds ≠ [])
    (hdig : ds.all Char.isDigit = true)
    (himp : importFromEPSG (digitsToNat ds) = true) :
    get_sr_from_crs importFromEPSG
        ⟨some "name".toList,
         some ("urn:ogc:def:crs:".toList ++ (a ++ ':' :: ':' :: ds)), none⟩
      = Except.ok (digitsToNat ds)
    ∧ get_sr_from_crs importFromEPSG
        ⟨some "name".toList, some "EPSG:4326".toList, none⟩
      = Except.error (PyError.valueError "not enough values to unpack")
    ∧ get_sr_from_crs importFromEPSG
        ⟨some "name".toList, some "urn:ogc:def:crs:EPSG:0:32612".toList, none⟩
      = Except.error (PyError.valueError "invalid literal for int with base 10") := by
  refine ⟨?_, rfl, rfl⟩
  have hca : ':' ∉ a := not_colon_mem_of_pyLower_epsg ha
  have hcds : ':' ∉ ds := not_colon_mem_of_all_digit hdig
  simp only [get_sr_from_crs, List.drop_left, pySplit1_append ':' a (':' :: ds) hca, ha,
    pyStrip_cons_of_not_mem ':' ds hcds, pyInt?_digits hne hdig, himp, if_true,
    eq_self_iff_true]

deriving instance DecidableEq for Except

/-- C3 counterexample: the claim that a name lacking the urn:ogc:def:crs:
prefix fails with a ConfigurationError is false, and so is the claim that
every well-formed urn:ogc:def:crs:EPSG:version:CODE name resolves: the name
urn:ogc:def:crs:EPSG:0:32612 carries the prefix and a numeric code yet fails,
while URN:OGC:DEF:CRS:EPSG::32612 lacks the exact prefix yet resolves. -/
theorem c3_crs_name_counterexample :
    ("urn:ogc:def:crs:EPSG:0:32612".toList.take 16 = "urn:ogc:def:crs:".toList
      ∧ get_sr_from_crs (fun _ => true)
          ⟨some "name".toList, some "urn:ogc:def:crs:EPSG:0:32612".toList, none⟩
        ≠ Except.ok 32612)
    ∧ ("URN:OGC:DEF:CRS:EPSG::32612".toList.take 16 ≠ "urn:ogc:def:crs:".toList
      ∧ get_sr_from_crs (fun _ => true)
          ⟨some "name".toList, some "URN:OGC:DEF:CRS:EPSG::32612".toList, none⟩
        = Except.ok 32612) := by
  decide

/-- Witness for C3 (amended) at the concrete name urn:ogc:def:crs:EPSG::32612. -/
theorem c3_crs_name_resolution_amended_witness :
    pyLower "EPSG".toList = "epsg".toList
    ∧ "32612".toList ≠ []
    ∧ "32612".toList.all Char.isDigit = true
    ∧ get_sr_from_crs (fun _ => true)
        ⟨some "name".toList,
         some ("urn:ogc:def:crs:".toList ++ ("EPSG".toList ++ ':' :: ':' :: "32612".toList)), none⟩
      = Except.ok (digitsToNat "32612".toList) := by
  refine ⟨by decide, by decide, by decide, ?_⟩
  exact (c3_crs_name_resolution_amended (fun _ => true) "EPSG".toList "32612".toList
    (by decide) (by decide) (by decide) rfl).1

/-- Leading-block test: sub is an initial block of l. -/
def startsWithList (sub : List Char) : List Char → Bool
  | l =>
    match sub, l with
    | [], _ => true
    | _ :: _, [] => false
    | d :: sub', c :: l' => c == d && startsWithList sub' l'

/-- Substring search over character lists. -/
def containsSubList (sub : List Char) : List Char → Bool
  | [] => startsWithList sub []
  | c :: l' => startsWithList sub (c :: l') || containsSubList sub l'

/-- Python substring test s.find(sub) >= 0 (plotclip.py line 114). -/
def strContainsSub (s sub : String) : Bool :=
  containsSubList sub.toList s.toList

/-- Models get_plot_key_name (plotclip.py lines 93-125).  The properties are
the ordered key/value pairs of the feature's JSON properties object, with
values modelled as strings.  Returns none where the Python function returns
None at line 125. -/
def get_plot_key_name (properties : List (String × String)) (default_key : Option String) :
    Option (String × String) :=
  let searched :=
    match lookupDict properties "observationUnitName" with
    | some v => some ("observationUnitName", v)
    | none =>
      let best_fit := properties.foldl
        (fun bf kv =>
          if strContainsSub kv.1.toLower "plot"
             && (strContainsSub kv.1.toLower "name" || strContainsSub kv.1.toLower "id") then
            some kv.1
          else if kv.1.toLower == "id" && bf.isNone then some kv.1
          else bf)
        none
      match best_fit with
      | some k => if k = "" then none else some (k, (lookupDict properties k).getD "")
      | none => none
  match default_key with
  | some dk =>
    if dk ≠ "" then
      match lookupDict properties dk with
      | some v => some (dk, v)
      | none => searched
    else searched
  | none => searched

/-- One GeoJSON feature as consumed by the loader loop (lines 156-189): the
'type' value, whether a 'geometry' key is present, the 'properties' object
(none when the key is absent), and whether the external
ogr.CreateGeometryFromJson succeeds on its geometry. -/
structure PlotFeature where
  ftype : Option String
  has_geometry : Bool
  properties : Option (List (String × String))
  geom_ok : Bool
  deriving DecidableEq

/-- Models the feature loop of load_plot_file (plotclip.py lines 156-189).
The returned plots dict maps each resolved plot name to the 1-based index of
the feature whose geometry it holds; the ogr geometry itself and the spatial
reference assignment at lines 181-183 are external and not observable in
this mapping.  The two-target unpacking at line 171 raises a TypeError when
get_plot_key_name returns None. -/
def load_plot_file_features (features : List PlotFeature) (plot_column : Option String) :
    Except PyError (List (String × Nat)) :=
  (features.foldl
    (fun st f =>
      match st with
      | Except.error e => Except.error e
      | Except.ok (idx, sticky, plots) =>
        let feature_idx := idx + 1
        let plot_key :=
          match plot_column with
          | some c => if c ≠ "" then some c else sticky
          | none => sticky
        if f.ftype ≠ some "Feature" ∨ f.has_geometry = false then
          Except.ok (feature_idx, plot_key, plots)
        else
          match f.properties with
          | some props =>
            match get_plot_key_name props plot_key with
            | none => Except.error (PyError.typeError "cannot unpack non-iterable NoneType object")
            | some (k, v) =>
              let plot_name := if v = "" then "Plot " ++ toString feature_idx else v
              if f.geom_ok = false then
                Except.error (PyError.runtimeError "Unable to create geometry from JSON")
              else
                Except.ok (feature_idx, some k, dictInsert plots plot_name feature_idx)
          | none =>
            if f.geom_ok = false then
              Except.error (PyError.runtimeError "Unable to create geometry from JSON")
            else
              Except.ok (feature_idx, plot_key, dictInsert plots ("Plot " ++ toString feature_idx) feature_idx))
    (Except.ok (0, none, [])))
  |>.map (fun st => st.2.2)

/-- C2: the code contradicts the claim.  A feature whose properties dict is
empty (and no sticky or default key is in effect) makes get_plot_key_name
return None, and the unpacking at line 171 raises a TypeError, so catalog
loading fails instead of assigning the name "Plot 1".  The "Plot " ++ index
default is only reachable for a feature with no 'properties' key at all (or
a falsy looked-up name value). -/
theorem c2_empty_properties_raises_type_error :
    load_plot_file_features [⟨some "Feature", true, some [], true⟩] none
      = Except.error (PyError.typeError "cannot unpack non-iterable NoneType object")
    ∧ load_plot_file_features [⟨some "Feature", true, none, true⟩] none
      = Except.ok [("Plot 1", 1)] := by
  constructor
  · rfl
  · rfl

/-- External geometry-engine operations used by calculate_overlap_percent:
Intersection may raise an exception or return None (no geometry), and Area
may raise.  Areas are modelled as rationals. -/
structure GeoOps (G : Type) where
  intersection : G → G → Except PyError (Option G)
  area : G → Except PyError Rat

/-- Body of the try block of calculate_overlap_percent (plotclip.py lines
272-276), including the fall-through return 0.0 at line 280 for the paths
that do not raise, and Python float division raising ZeroDivisionError on a
zero denominator.  The Python call other_bounds.Intersection(check_bounds)
maps to ops.intersection other_bounds check_bounds. -/
def overlap_percent_try {G : Type} (ops : GeoOps G) (check_bounds other_bounds : Option G) :
    Except PyError Rat :=
  match check_bounds, other_bounds with
  | some cb, some ob =>
    match ops.intersection ob cb with
    | Except.error e => Except.error e
    | Except.ok none => Except.ok 0
    | Except.ok (some inter) =>
      match ops.area inter with
      | Except.error e => Except.error e
      | Except.ok inter_area =>
        match ops.area cb with
        | Except.error e => Except.error e
        | Except.ok check_area =>
          if check_area = 0 then Except.error PyError.zeroDivisionError
          else Except.ok (inter_area / check_area)
  | _, _ => Except.ok 0

/-- Models calculate_overlap_percent (plotclip.py lines 259-280): any
exception from the body is caught, a warning is logged (logging is not
modelled), and 0.0 is returned at line 280. -/
def calculate_overlap_percent {G : Type} (ops : GeoOps G) (check_bounds other_bounds : Option G) :
    Rat :=
  match overlap_percent_try ops check_bounds other_bounds with
  | Except.ok v => v
  | Except.error _ => 0

/-- Overlap-threshold decision of perform_process at plotclip.py line 445:
the plot is kept unless calculate_overlap_percent(plot_bounds, file_bounds)
is strictly below 0.10. -/
def plot_overlap_keep {G : Type} (ops : GeoOps G) (plot_bounds file_bounds : G) : Bool :=
  !(decide (calculate_overlap_percent ops (some plot_bounds) (some file_bounds) < (1 / 10 : Rat)))

/-- C4: whenever the intersection or area computation raises an exception,
calculate_overlap_percent catches it and returns 0.0; the exception is never
propagated. -/
theorem c4_overlap_exception_caught {G : Type} (ops : GeoOps G)
    (check_bounds other_bounds : Option G) (e : PyError)
    (h : overlap_percent_try ops check_bounds other_bounds = Except.error e) :
    calculate_overlap_percent ops check_bounds other_bounds = 0 := by
  unfold calculate_overlap_percent
  rw [h]

/-- Operations for the C4 witness: an Intersection call that always raises. -/
def c4_raising_ops : GeoOps Unit :=
  { intersection := fun _ _ => Except.error (PyError.runtimeError "TopologyException")
  , area := fun _ => Except.ok 1 }

/-- Witness for C4: a raising geometry engine makes the body error and the
caught result is 0. -/
theorem c4_overlap_exception_caught_witness :
    overlap_percent_try c4_raising_ops (some ()) (some ())
      = Except.error (PyError.runtimeError "TopologyException")
    ∧ calculate_overlap_percent c4_raising_ops (some ()) (some ()) = 0 :=
  ⟨rfl, c4_overlap_exception_caught c4_raising_ops (some ()) (some ())
    (PyError.runtimeError "TopologyException") rfl⟩

/-- C9: when either geometry argument is None, calculate_overlap_percent
returns 0.0 without consulting the geometry engine at all (the statement
holds for every ops, including ones whose every call raises), so no
exception can occur on that path. -/
theorem c9_overlap_none_args {G : Type} (ops : GeoOps G) (g : Option G) :
    calculate_overlap_percent ops none g = 0
    ∧ calculate_overlap_percent ops g none = 0 := by
  constructor
  · cases g <;> rfl
  · cases g <;> rfl

/-- C5: on a successful geometry path the overlap fraction is
Area(file_bounds.Intersection(plot_bounds)) / Area(plot_bounds); a fraction
of exactly 1/10 is retained by the threshold test at line 445 and a fraction
strictly below 1/10 is discarded. -/
theorem c5_overlap_threshold {G : Type} (ops : GeoOps G)
    (plot_bounds file_bounds inter : G) (inter_area plot_area : Rat)
    (hint : ops.intersection file_bounds plot_bounds = Except.ok (some inter))
    (hia : ops.area inter = Except.ok inter_area)
    (hpa : ops.area plot_bounds = Except.ok plot_area)
    (hnz : plot_area ≠ 0) :
    calculate_overlap_percent ops (some plot_bounds) (some file_bounds) = inter_area / plot_area
    ∧ (calculate_overlap_percent ops (some plot_bounds) (some file_bounds) = 1 / 10 →
        plot_overlap_keep ops plot_bounds file_bounds = true)
    ∧ (calculate_overlap_percent ops (some plot_bounds) (some file_bounds) < 1 / 10 →
        plot_overlap_keep ops plot_bounds file_bounds = false) := by
  refine ⟨?_, ?_, ?_⟩
  · have hbody : overlap_percent_try ops (some plot_bounds) (some file_bounds)
        = Except.ok (inter_area / plot_area) := by
      simp only [overlap_percent_try, hint, hia, hpa, if_neg hnz]
    unfold calculate_overlap_percent
    rw [hbody]
  · intro hfrac
    have h1 : ¬ (calculate_overlap_percent ops (some plot_bounds) (some file_bounds)
        < (1 / 10 : Rat)) := by
      rw [hfrac]
      exact lt_irrefl _
    unfold plot_overlap_keep
    rw [decide_eq_false h1]
    rfl
  · intro hfrac
    unfold plot_overlap_keep
    rw [decide_eq_true hfrac]
    rfl

/-- Operations for the C5 witness: geometry 2 is the intersection with area
1, geometry 0 is the plot with area 10, so the fraction is exactly 1/10. -/
def c5_boundary_ops : GeoOps Nat :=
  { intersection := fun _ _ => Except.ok (some 2)
  , area := fun g => Except.ok (if g = 2 then 1 else 10) }

/-- Witness for C5 at the exact 10 percent boundary: fraction 1/10, kept. -/
theorem c5_overlap_threshold_witness :
    c5_boundary_ops.intersection 1 0 = Except.ok (some 2)
    ∧ calculate_overlap_percent c5_boundary_ops (some 0) (some 1) = 1 / 10
    ∧ plot_overlap_keep c5_boundary_ops 0 1 = true := by
  have h := c5_overlap_threshold c5_boundary_ops 0 1 2 1 10 rfl rfl rfl (by norm_num)
  exact ⟨rfl, h.1, h.2.1 h.1⟩

/-- External geometry and spatial-reference operations used by
find_plots_intersect_boundingbox (plotclip.py lines 191-223):
GetSpatialReference may return None, IsSame compares two references,
agpypeline geometries.convert_geometry reprojects, Intersection may return
None, and exportCoordsLen is the length of the 'coordinates' member of the
intersection's exported JSON (none when the export has no such key). -/
structure MatchOps (G SR : Type) where
  getSpatialReference : G → Option SR
  isSame : SR → SR → Bool
  convert_geometry : G → SR → G
  intersection : G → G → Option G
  exportCoordsLen : G → Option Nat

/-- Geometry used for the intersection test (plotclip.py lines 207-213):
the plot polygon itself, unless the bounding box has a spatial reference,
the polygon has one too, and the two are not the same, in which case the
polygon is converted into the bounding box's reference. -/
def fpib_check_poly {G SR : Type} (ops : MatchOps G SR) (bb_sr : Option SR) (poly : G) : G :=
  match bb_sr with
  | none => poly
  | some sr =>
    match ops.getSpatialReference poly with
    | none => poly
    | some psr => if ops.isSame sr psr then poly else ops.convert_geometry poly sr

/-- Inclusion test of find_plots_intersect_boundingbox (lines 215-221): the
intersection with the bounding box is not None and its exported JSON has a
'coordinates' member of positive length. -/
def fpib_included {G SR : Type} (ops : MatchOps G SR) (bounding_box : G) (bb_sr : Option SR)
    (poly : G) : Bool :=
  match ops.intersection bounding_box (fpib_check_poly ops bb_sr poly) with
  | none => false
  | some inter =>
    match ops.exportCoordsLen inter with
    | none => false
    | some n => decide (0 < n)

/-- Models find_plots_intersect_boundingbox (plotclip.py lines 191-223):
fold over the plots dict, storing the original geometry of each plot that
passes the inclusion test.  The bounding box itself is used unconverted in
every intersection call. -/
def find_plots_intersect_boundingbox {G SR : Type} (ops : MatchOps G SR) (bounding_box : G)
    (all_plots : List (String × G)) : List (String × G) :=
  all_plots.foldl
    (fun intersecting_plots p =>
      if fpib_included ops bounding_box (ops.getSpatialReference bounding_box) p.2 then
        dictInsert intersecting_plots p.1 p.2
      else intersecting_plots)
    []

theorem dictInsert_of_not_mem {α : Type} (v : α) :
    ∀ (d : List (String × α)) (k : String), k ∉ d.map Prod.fst →
      dictInsert d k v = d ++ [(k, v)]
  | [], _, _ => rfl
  | (k', v') :: rest, k, h => by
    have hk : ¬ k' = k := by
      intro he
      exact h (by simp [he])
    have hrest : k ∉ rest.map Prod.fst := by
      intro hm
      exact h (by simp [hm])
    simp only [dictInsert, if_neg hk, List.cons_append]
    rw [dictInsert_of_not_mem v rest k hrest]

theorem lookupDict_eq_none {α : Type} :
    ∀ (d : List (String × α)) (k : String), k ∉ d.map Prod.fst → lookupDict d k = none
  | [], _, _ => rfl
  | (k', v') :: rest, k, h => by
    have hk : ¬ k' = k := by
      intro he
      exact h (by simp [he])
    simp only [lookupDict, if_neg hk]
    exact lookupDict_eq_none rest k (fun hm => h (by simp [hm]))

theorem lookupDict_filter_val {α : Type} (g : α → Bool) :
    ∀ (l : List (String × α)) (k : String), (l.map Prod.fst).Nodup →
      lookupDict (l.filter (fun p => g p.2)) k
        = (lookupDict l k).bind (fun v => if g v then some v else none)
  | [], _, _ => rfl
  | (k', v') :: rest, k, hnd => by
    rw [List.map_cons, List.nodup_cons] at hnd
    by_cases hg : g v' = true
    · rw [List.filter_cons_of_pos (by simpa using hg)]
      by_cases hk : k' = k
      · simp [lookupDict, hk, hg]
      · simp only [lookupDict, if_neg hk]
        exact lookupDict_filter_val g rest k hnd.2
    · rw [List.filter_cons_of_neg (by simpa using hg)]
      by_cases hk : k' = k
      · have hnone : lookupDict (rest.filter (fun p => g p.2)) k = none := by
          apply lookupDict_eq_none
          intro hm
          rcases List.mem_map.mp hm with ⟨p, hp, hpk⟩
          refine hnd.1 ?_
          rw [hk]
          exact List.mem_map.mpr ⟨p, List.mem_of_mem_filter hp, hpk⟩
        rw [hnone]
        simp [lookupDict, hk, hg]
      · simp only [lookupDict, if_neg hk]
        exact lookupDict_filter_val g rest k hnd.2

theorem fpib_foldl_eq_filter {G SR : Type} (ops : MatchOps G SR) (bounding_box : G)
    (bb_sr : Option SR) (l : List (String × G)) :
    ∀ (acc : List (String × G)),
      (∀ p ∈ l, p.1 ∉ acc.map Prod.fst) → (l.map Prod.fst).Nodup →
      l.foldl
          (fun intersecting_plots p =>
            if fpib_included ops bounding_box bb_sr p.2 then
              dictInsert intersecting_plots p.1 p.2
            else intersecting_plots)
          acc
        = acc ++ l.filter (fun p => fpib_included ops bounding_box bb_sr p.2) := by
  induction l with
  | nil =>
    intro acc _ _
    simp
  | cons p t ih =>
    intro acc hfresh hnd
    rw [List.map_cons, List.nodup_cons] at hnd
    have hp : p.1 ∉ acc.map Prod.fst := hfresh p (List.mem_cons_self p t)
    rw [List.foldl_cons]
    by_cases hinc : fpib_included ops bounding_box bb_sr p.2 = true
    · rw [if_pos hinc, dictInsert_of_not_mem _ _ _ hp,
        ih (acc ++ [(p.1, p.2)]) ?_ hnd.2, List.filter_cons_of_pos (by simpa using hinc)]
      · simp
      · intro q hq
        simp only [List.map_append, List.mem_append]
        rintro (hin | hin)
        · exact hfresh q (List.mem_cons_of_mem _ hq) hin
        · simp only [List.map_cons, List.map_nil, List.mem_singleton] at hin
          exact hnd.1 (hin ▸ List.mem_map_of_mem Prod.fst hq)
    · rw [if_neg hinc, ih acc (fun q hq => hfresh q (List.mem_cons_of_mem _ hq)) hnd.2,
        List.filter_cons_of_neg (by simpa using hinc)]

/-- C6: for a plots dict with unique names, the matcher returns exactly the
plots passing the inclusion test, storing the original unconverted geometry;
a plot is included exactly when the intersection of its (possibly converted)
geometry with the bounding box is not None and has at least one coordinate;
and the geometry used for the test differs from the original only when both
spatial references are present and IsSame is false (the bounding box is
never converted). -/
theorem c6_find_plots_intersect_boundingbox {G SR : Type} (ops : MatchOps G SR)
    (bounding_box : G) (all_plots : List (String × G))
    (hnd : (all_plots.map Prod.fst).Nodup) :
    (∀ n g, lookupDict (find_plots_intersect_boundingbox ops bounding_box all_plots) n = some g →
        lookupDict all_plots n = some g
          ∧ fpib_included ops bounding_box (ops.getSpatialReference bounding_box) g = true)
    ∧ (∀ n g, lookupDict all_plots n = some g →
        fpib_included ops bounding_box (ops.getSpatialReference bounding_box) g = true →
        lookupDict (find_plots_intersect_boundingbox ops bounding_box all_plots) n = some g)
    ∧ (∀ poly, fpib_check_poly ops (ops.getSpatialReference bounding_box) poly ≠ poly →
        ∃ bsr psr, ops.getSpatialReference bounding_box = some bsr
          ∧ ops.getSpatialReference poly = some psr ∧ ops.isSame bsr psr = false) := by
  have hfp : find_plots_intersect_boundingbox ops bounding_box all_plots
      = all_plots.filter
          (fun p => fpib_included ops bounding_box (ops.getSpatialReference bounding_box) p.2) := by
    unfold find_plots_intersect_boundingbox
    rw [fpib_foldl_eq_filter ops bounding_box (ops.getSpatialReference bounding_box) all_plots []
      (by simp) hnd]
    simp
  refine ⟨?_, ?_, ?_⟩
  · intro n g hl
    rw [hfp, lookupDict_filter_val _ all_plots n hnd] at hl
    cases hcase : lookupDict all_plots n with
    | none =>
      rw [hcase] at hl
      simp at hl
    | some v =>
      rw [hcase] at hl
      by_cases hii : fpib_included ops bounding_box (ops.getSpatialReference bounding_box) v = true
      · rw [Option.some_bind, if_pos hii, Option.some_inj] at hl
        refine ⟨by rw [hl], ?_⟩
        rw [← hl]
        exact hii
      · rw [Option.some_bind, if_neg hii] at hl
        exact absurd hl (by simp)
  · intro n g hl hinc
    rw [hfp, lookupDict_filter_val _ all_plots n hnd, hl]
    simp [hinc]
  · intro poly hne
    cases hbb : ops.getSpatialReference bounding_box with
    | none =>
      simp only [fpib_check_poly, hbb] at hne
      exact absurd rfl hne
    | some bsr =>
      cases hps : ops.getSpatialReference poly with
      | none =>
        simp only [fpib_check_poly, hbb, hps] at hne
        exact absurd rfl hne
      | some psr =>
        by_cases hsame : ops.isSame bsr psr = true
        · simp only [fpib_check_poly, hbb, hps, hsame, if_true] at hne
          exact absurd rfl hne
        · exact ⟨bsr, psr, rfl, rfl, Bool.eq_false_iff.mpr hsame⟩

/-- Concrete geometry engine for the C6 witness: spatial references are the
geometry values themselves, conversion is the identity, every intersection
returns the polygon, and every export has one coordinate. -/
def c6_demo_ops : MatchOps Nat Nat :=
  { getSpatialReference := fun g => some g
  , isSame := fun a b => a == b
  , convert_geometry := fun g _ => g
  , intersection := fun _ p => some p
  , exportCoordsLen := fun _ => some 1 }

/-- Witness for C6 on a one-plot catalog with unique names. -/
theorem c6_find_plots_intersect_boundingbox_witness :
    ((([("p1", 5)] : List (String × Nat)).map Prod.fst).Nodup)
    ∧ ((∀ n g,
          lookupDict (find_plots_intersect_boundingbox c6_demo_ops 0 [("p1", 5)]) n = some g →
          lookupDict [("p1", 5)] n = some g
            ∧ fpib_included c6_demo_ops 0 (c6_demo_ops.getSpatialReference 0) g = true)
      ∧ (∀ n g, lookupDict [("p1", 5)] n = some g →
          fpib_included c6_demo_ops 0 (c6_demo_ops.getSpatialReference 0) g = true →
          lookupDict (find_plots_intersect_boundingbox c6_demo_ops 0 [("p1", 5)]) n = some g)
      ∧ (∀ poly, fpib_check_poly c6_demo_ops (c6_demo_ops.getSpatialReference 0) poly ≠ poly →
          ∃ bsr psr, c6_demo_ops.getSpatialReference 0 = some bsr
            ∧ c6_demo_ops.getSpatialReference poly = some psr
            ∧ c6_demo_ops.isSame bsr psr = false)) :=
  ⟨by decide, c6_find_plots_intersect_boundingbox c6_demo_ops 0 [("p1", 5)] (by decide)⟩

/-- Models cleanup_request_md (plotclip.py lines 282-298): a falsy source
(None or the empty dict) yields the empty dict; otherwise the copy (values
compare equal to the source's, so the deep copy is the identity in this
value model) loses the keys list_files, context_md and working_folder. -/
def cleanup_request_md {V : Type} (source_md : Option (List (String × V))) :
    List (String × V) :=
  match source_md with
  | none => []
  | some md =>
    if md.isEmpty then []
    else pyPop (pyPop (pyPop md "list_files") "context_md") "working_folder"

theorem cleanup_request_md_eq {V : Type} (md : List (String × V)) :
    cleanup_request_md (some md)
      = pyPop (pyPop (pyPop md "list_files") "context_md") "working_folder" := by
  cases md with
  | nil => rfl
  | cons p rest => rfl

theorem pyPop_sublist {α : Type} :
    ∀ (d : List (String × α)) (k : String), (pyPop d k).Sublist d
  | [], _ => List.Sublist.refl _
  | (k', v) :: rest, k => by
    by_cases hk : k' = k
    · simp only [pyPop, if_pos hk]
      exact List.sublist_cons_self _ _
    · simp only [pyPop, if_neg hk]
      exact List.Sublist.cons₂ _ (pyPop_sublist rest k)

theorem lookupDict_pyPop_ne {α : Type} {k kp : String} (hkk : k ≠ kp) :
    ∀ (d : List (String × α)), lookupDict (pyPop d kp) k = lookupDict d k
  | [] => rfl
  | (k', v) :: rest => by
    by_cases hp : k' = kp
    · simp only [pyPop, if_pos hp, lookupDict]
      rw [if_neg (fun he => hkk ((he : k' = k) ▸ hp))]
    · simp only [pyPop, if_neg hp, lookupDict]
      by_cases hk : k' = k
      · rw [if_pos hk, if_pos hk]
      · rw [if_neg hk, if_neg hk]
        exact lookupDict_pyPop_ne hkk rest

theorem lookupDict_pyPop_self {α : Type} :
    ∀ (d : List (String × α)) (k : String), (d.map Prod.fst).Nodup →
      lookupDict (pyPop d k) k = none
  | [], _, _ => rfl
  | (k', v) :: rest, k, hnd => by
    rw [List.map_cons, List.nodup_cons] at hnd
    by_cases hk : k' = k
    · simp only [pyPop, if_pos hk]
      apply lookupDict_eq_none
      rw [← hk]
      exact hnd.1
    · simp only [pyPop, if_neg hk, lookupDict, if_neg hk]
      exact lookupDict_pyPop_self rest k hnd.2

/-- C10: for a source dict with unique keys, the cleanup removes exactly the
keys list_files, context_md and working_folder, leaves every other key bound
to the source's value, and a None or empty source yields the empty dict.
The source itself is untouched (all modelled operations are pure copies, as
the Python code deep-copies before popping). -/
theorem c10_cleanup_request_md {V : Type} (md : List (String × V))
    (hnd : (md.map Prod.fst).Nodup) :
    lookupDict (cleanup_request_md (some md)) "list_files" = none
    ∧ lookupDict (cleanup_request_md (some md)) "context_md" = none
    ∧ lookupDict (cleanup_request_md (some md)) "working_folder" = none
    ∧ (∀ k, k ≠ "list_files" → k ≠ "context_md" → k ≠ "working_folder" →
        lookupDict (cleanup_request_md (some md)) k = lookupDict md k)
    ∧ cleanup_request_md (none : Option (List (String × V))) = []
    ∧ cleanup_request_md (some ([] : List (String × V))) = [] := by
  have hnd1 : ((pyPop md "list_files").map Prod.fst).Nodup :=
    hnd.sublist (List.Sublist.map Prod.fst (pyPop_sublist md "list_files"))
  have hnd2 : ((pyPop (pyPop md "list_files") "context_md").map Prod.fst).Nodup :=
    hnd1.sublist (List.Sublist.map Prod.fst (pyPop_sublist (pyPop md "list_files") "context_md"))
  refine ⟨?_, ?_, ?_, ?_, rfl, rfl⟩
  · rw [cleanup_request_md_eq, lookupDict_pyPop_ne (by decide),
      lookupDict_pyPop_ne (by decide)]
    exact lookupDict_pyPop_self md "list_files" hnd
  · rw [cleanup_request_md_eq, lookupDict_pyPop_ne (by decide)]
    exact lookupDict_pyPop_self (pyPop md "list_files") "context_md" hnd1
  · rw [cleanup_request_md_eq]
    exact lookupDict_pyPop_self (pyPop (pyPop md "list_files") "context_md") "working_folder" hnd2
  · intro k h1 h2 h3
    rw [cleanup_request_md_eq, lookupDict_pyPop_ne h3, lookupDict_pyPop_ne h2,
      lookupDict_pyPop_ne h1]

/-- Witness for C10 on a concrete four-key request-metadata dict. -/
theorem c10_cleanup_request_md_witness :
    (([("sensor", "rgb"), ("list_files", "fn"), ("context_md", "c"), ("working_folder", "w")]
        : List (String × String)).map Prod.fst).Nodup
    ∧ (lookupDict (cleanup_request_md (some [("sensor", "rgb"), ("list_files", "fn"),
          ("context_md", "c"), ("working_folder", "w")])) "list_files" = none
      ∧ lookupDict (cleanup_request_md (some [("sensor", "rgb"), ("list_files", "fn"),
          ("context_md", "c"), ("working_folder", "w")])) "context_md" = none
      ∧ lookupDict (cleanup_request_md (some [("sensor", "rgb"), ("list_files", "fn"),
          ("context_md", "c"), ("working_folder", "w")])) "working_folder" = none
      ∧ (∀ k, k ≠ "list_files" → k ≠ "context_md" → k ≠ "working_folder" →
          lookupDict (cleanup_request_md (some [("sensor", "rgb"), ("list_files", "fn"),
            ("context_md", "c"), ("working_folder", "w")])) k
            = lookupDict [("sensor", "rgb"), ("list_files", "fn"),
                ("context_md", "c"), ("working_folder", "w")] k)
      ∧ cleanup_request_md (none : Option (List (String × String))) = []
      ∧ cleanup_request_md (some ([] : List (String × String))) = []) :=
  ⟨by decide,
    c10_cleanup_request_md
      [("sensor", "rgb"), ("list_files", "fn"), ("context_md", "c"), ("working_folder", "w")]
      (by decide)⟩

/-- Per-file metadata block built by prepare_container_md (lines 327-333).
The transformer name and version come from the external configuration
module, and the timestamp from datetime.utcnow(). -/
structure FileRecordMeta where
  source : String
  transformer : String
  version : String
  timestamp : String
  plot_name : String
  deriving DecidableEq, Repr

/-- One element of a container entry's 'file' list (lines 324-334). -/
structure FileRecord where
  path : String
  key : String
  metadata : FileRecordMeta
  deriving DecidableEq, Repr

/-- The 'metadata' block of a container entry (lines 316-319). -/
structure EntryMetadata where
  replace : Bool
  data : List (String × String)
  deriving DecidableEq, Repr

/-- One container-metadata dict.  prepare_container_md stores its records
under the key 'file' and never creates a 'files' key, while
merge_container_md reads and writes the key 'files'; the model therefore
carries both: 'file' as built at line 320, and the optional 'files' member
that merge_container_md manipulates at lines 368-381 (none when absent). -/
structure ContainerMetadataEntry where
  name : String
  metadata : EntryMetadata
  file : List FileRecord
  files : Option (List FileRecord)
  deriving DecidableEq, Repr

/-- Models prepare_container_md (plotclip.py lines 300-335): path_exists
models os.path.exists; records are appended in result_files order for the
paths that exist. -/
def prepare_container_md (path_exists : String → Bool)
    (transformer_name transformer_version timestamp : String)
    (plot_name : String) (plot_md : List (String × String)) (sensor : String)
    (source_file : String) (result_files : List String) : ContainerMetadataEntry :=
  { name := plot_name
  , metadata := { replace := true, data := plot_md }
  , file :=
      (result_files.filter path_exists).map
        (fun one_file =>
          { path := one_file
          , key := sensor
          , metadata :=
            { source := source_file
            , transformer := transformer_name
            , version := transformer_version
            , timestamp := timestamp
            , plot_name := plot_name } })
  , files := none }

/-- Inner loop of merge_container_md (lines 370-378): each incoming record
is compared by path against the destination list as it grows (the Python
code appends to the same list object it scans), and appended when no match
is found. -/
def mergeFilesStep (acc : List FileRecord) (one_file : FileRecord) : List FileRecord :=
  if acc.any (fun match_file => match_file.path == one_file.path) then acc
  else acc ++ [one_file]

def mergeFiles (wfiles nfiles : List FileRecord) : List FileRecord :=
  nfiles.foldl mergeFilesStep wfiles

/-- Update applied to the matched destination entry (lines 366-381): nothing
changes when the incoming dict has no 'files' key; otherwise the entry
either receives the incoming 'files' list verbatim (no 'files' in the
target, line 381) or the path-deduplicated merge (lines 370-378). -/
def merge_update (working_md new_md : ContainerMetadataEntry) : ContainerMetadataEntry :=
  match new_md.files with
  | none => working_md
  | some nfiles =>
    match working_md.files with
    | none => { working_md with files := some nfiles }
    | some wfiles => { working_md with files := some (mergeFiles wfiles nfiles) }

/-- Match-and-update pass of merge_container_md (lines 353-383): the first
entry whose 'name' equals the incoming entry's 'name' is updated in place;
when none matches the incoming entry is appended at the end. -/
def merge_loop : List ContainerMetadataEntry → ContainerMetadataEntry → List ContainerMetadataEntry
  | [], new_md => [new_md]
  | e :: rest, new_md =>
    if e.name = new_md.name then merge_update e new_md :: rest
    else e :: merge_loop rest new_md

/-- Models merge_container_md (plotclip.py lines 337-383).  The early return
at lines 348-351 hands back [new_md] for an empty destination; the incoming
dict is always one built by prepare_container_md, hence non-empty and truthy,
so the 'return []' branch for a falsy new_md is unreachable in this program. -/
def merge_container_md (dest_md : List ContainerMetadataEntry)
    (new_md : ContainerMetadataEntry) : List ContainerMetadataEntry :=
  if dest_md.isEmpty then [new_md] else merge_loop dest_md new_md

/-- Total number of FileRecords held in a container-metadata list, counting
both the 'file' lists and any 'files' lists. -/
def totalFileRecords (md : List ContainerMetadataEntry) : Nat :=
  (md.map
    (fun e => e.file.length + (match e.files with | some l => l.length | none => 0))).sum

/-- First entry merged in the C1 run: plot A clipped out of source1.tif. -/
def c1_entry_a : ContainerMetadataEntry :=
  prepare_container_md (fun _ => true) "plotclip" "1.0" "t0" "plot A" [] "rgb"
    "source1.tif" ["out/plot A/source1.tif"]

/-- Second entry merged in the C1 run: plot A clipped out of source2.tif,
with a file path disjoint from the first entry's. -/
def c1_entry_b : ContainerMetadataEntry :=
  prepare_container_md (fun _ => true) "plotclip" "1.0" "t1" "plot A" [] "rgb"
    "source2.tif" ["out/plot A/source2.tif"]

/-- C1: the code contradicts the claim.  Merging two prepared entries with
the same name and disjoint file paths leaves the destination entry entirely
unchanged — the incoming entry's records are silently dropped — because
merge_container_md inspects the key 'files' (lines 368-381) while
prepare_container_md stores records under the key 'file' (line 320).  The
claimed union (resulting length 2 = 1 + 1) never happens: the total record
count stays 1. -/
theorem c1_merge_drops_incoming_file_records :
    merge_container_md (merge_container_md [] c1_entry_a) c1_entry_b = [c1_entry_a]
    ∧ totalFileRecords (merge_container_md (merge_container_md [] c1_entry_a) c1_entry_b) = 1
    ∧ c1_entry_a.file.length + c1_entry_b.file.length = 2 := by
  refine ⟨rfl, rfl, rfl⟩


theorem mergeFilesStep_shape (acc : List FileRecord) (f : FileRecord) :
    mergeFilesStep acc f = acc ∨ mergeFilesStep acc f = acc ++ [f] := by
  unfold mergeFilesStep
  by_cases h : acc.any (fun match_file => match_file.path == f.path) = true
  · exact Or.inl (if_pos h)
  · exact Or.inr (if_neg h)

theorem path_mem_mergeFilesStep (acc : List FileRecord) (f : FileRecord) :
    f.path ∈ (mergeFilesStep acc f).map FileRecord.path := by
  unfold mergeFilesStep
  by_cases h : acc.any (fun match_file => match_file.path == f.path) = true
  · rw [if_pos h]
    rcases List.any_eq_true.mp h with ⟨m, hm, hmp⟩
    exact List.mem_map.mpr ⟨m, hm, by simpa using hmp⟩
  · rw [if_neg h]
    simp

theorem map_path_mono_step (acc : List FileRecord) (f : FileRecord) :
    acc.map FileRecord.path ⊆ (mergeFilesStep acc f).map FileRecord.path := by
  rcases mergeFilesStep_shape acc f with h | h
  · rw [h]
    exact List.Subset.refl _
  · rw [h]
    simp only [List.map_append]
    exact List.subset_append_left _ _

theorem map_path_mono_mergeFiles :
    ∀ (nfiles acc : List FileRecord),
      acc.map FileRecord.path ⊆ (mergeFiles acc nfiles).map FileRecord.path
  | [], _ => fun _ h => h
  | f :: nf, acc =>
    (map_path_mono_step acc f).trans (map_path_mono_mergeFiles nf (mergeFilesStep acc f))

theorem mem_path_mergeFiles :
    ∀ (nfiles acc : List FileRecord) (f : FileRecord), f ∈ nfiles →
      f.path ∈ (mergeFiles acc nfiles).map FileRecord.path
  | [], _, _, hf => absurd hf (List.not_mem_nil _)
  | f' :: nf, acc, f, hf => by
    rcases List.mem_cons.mp hf with h | h
    · subst h
      exact map_path_mono_mergeFiles nf (mergeFilesStep acc f) (path_mem_mergeFilesStep acc f)
    · exact mem_path_mergeFiles nf (mergeFilesStep acc f') f h

theorem mergeFiles_absorbed :
    ∀ (nfiles acc : List FileRecord),
      (∀ f ∈ nfiles, f.path ∈ acc.map FileRecord.path) → mergeFiles acc nfiles = acc
  | [], _, _ => rfl
  | f :: nf, acc, h => by
    have hany : acc.any (fun match_file => match_file.path == f.path) = true := by
      rcases List.mem_map.mp (h f (List.mem_cons_self f nf)) with ⟨m, hm, hmp⟩
      exact List.any_eq_true.mpr ⟨m, hm, by simpa using hmp⟩
    have hstep : mergeFilesStep acc f = acc := by
      unfold mergeFilesStep
      rw [if_pos hany]
    show mergeFiles (mergeFilesStep acc f) nf = acc
    rw [hstep]
    exact mergeFiles_absorbed nf acc (fun g hg => h g (List.mem_cons_of_mem _ hg))

theorem mergeFiles_self_absorb (nfiles : List FileRecord) : mergeFiles nfiles nfiles = nfiles :=
  mergeFiles_absorbed nfiles nfiles (fun _ hf => List.mem_map_of_mem FileRecord.path hf)

theorem merge_update_name (working_md new_md : ContainerMetadataEntry) :
    (merge_update working_md new_md).name = working_md.name := by
  unfold merge_update
  cases new_md.files with
  | none => rfl
  | some nfiles =>
    cases working_md.files with
    | none => rfl
    | some wfiles => rfl

theorem merge_update_file (working_md new_md : ContainerMetadataEntry) :
    (merge_update working_md new_md).file = working_md.file := by
  unfold merge_update
  cases new_md.files with
  | none => rfl
  | some nfiles =>
    cases working_md.files with
    | none => rfl
    | some wfiles => rfl

theorem merge_update_idem (working_md new_md : ContainerMetadataEntry) :
    merge_update (merge_update working_md new_md) new_md = merge_update working_md new_md := by
  cases he : new_md.files with
  | none => simp [merge_update, he]
  | some nfiles =>
    cases hw : working_md.files with
    | none =>
      simp only [merge_update, he, hw]
      rw [mergeFiles_self_absorb]
    | some wfiles =>
      simp only [merge_update, he, hw]
      rw [mergeFiles_absorbed nfiles (mergeFiles wfiles nfiles)
        (fun f hf => mem_path_mergeFiles nfiles wfiles f hf)]

theorem merge_update_same (e : ContainerMetadataEntry) : merge_update e e = e := by
  cases he : e.files with
  | none => simp [merge_update, he]
  | some nfiles =>
    simp only [merge_update, he]
    rw [mergeFiles_self_absorb]
    cases e
    simp_all

theorem merge_loop_idem :
    ∀ (dest_md : List ContainerMetadataEntry) (new_md : ContainerMetadataEntry),
      merge_loop (merge_loop dest_md new_md) new_md = merge_loop dest_md new_md
  | [], new_md => by
    simp [merge_loop, merge_update_same]
  | h :: t, new_md => by
    by_cases hn : h.name = new_md.name
    · simp only [merge_loop, if_pos hn]
      rw [if_pos (by rw [merge_update_name]; exact hn), merge_update_idem]
    · simp only [merge_loop, if_neg hn]
      rw [merge_loop_idem t new_md]

theorem merge_loop_ne_nil (dest_md : List ContainerMetadataEntry)
    (new_md : ContainerMetadataEntry) : merge_loop dest_md new_md ≠ [] := by
  cases dest_md with
  | nil => simp [merge_loop]
  | cons h t =>
    by_cases hn : h.name = new_md.name <;> simp [merge_loop, hn]

/-- C7: merging the same entry a second time changes nothing — the resulting
list is identical, so in particular the total FileRecord count is unchanged.
(For entries built by prepare_container_md this holds because the second
merge matches by name and then does nothing at all; for entries carrying a
'files' key it holds because every incoming path is already present.) -/
theorem c7_merge_remerge_identity (dest_md : List ContainerMetadataEntry)
    (new_md : ContainerMetadataEntry) :
    merge_container_md (merge_container_md dest_md new_md) new_md
      = merge_container_md dest_md new_md
    ∧ totalFileRecords (merge_container_md (merge_container_md dest_md new_md) new_md)
      = totalFileRecords (merge_container_md dest_md new_md) := by
  have hmain : merge_container_md (merge_container_md dest_md new_md) new_md
      = merge_container_md dest_md new_md := by
    cases dest_md with
    | nil =>
      show merge_container_md [new_md] new_md = [new_md]
      unfold merge_container_md
      simp [merge_loop, merge_update_same]
    | cons h t =>
      have h1 : merge_container_md (h :: t) new_md = merge_loop (h :: t) new_md := by
        unfold merge_container_md
        rfl
      rw [h1]
      unfold merge_container_md
      rw [if_neg (by simpa using merge_loop_ne_nil (h :: t) new_md)]
      exact merge_loop_idem (h :: t) new_md
  exact ⟨hmain, by rw [hmain]⟩

/-- ContainerMetadataList invariant from the specification's data model: no
two entries share a name, and within an entry no two FileRecords of its
'file' list share a path. -/
def containerInv (md : List ContainerMetadataEntry) : Prop :=
  (md.map (fun e => e.name)).Nodup
  ∧ ∀ e ∈ md, ((e.file.map (fun f => f.path)).Nodup)

theorem merge_loop_map_name :
    ∀ (dest_md : List ContainerMetadataEntry) (new_md : ContainerMetadataEntry),
      (merge_loop dest_md new_md).map (fun e => e.name)
        = if new_md.name ∈ dest_md.map (fun e => e.name) then
            dest_md.map (fun e => e.name)
          else dest_md.map (fun e => e.name) ++ [new_md.name]
  | [], new_md => by simp [merge_loop]
  | h :: t, new_md => by
    by_cases hn : h.name = new_md.name
    · simp only [merge_loop, if_pos hn, List.map_cons, merge_update_name]
      have hm : new_md.name ∈ h.name :: t.map (fun e => e.name) := by
        rw [hn]
        exact List.mem_cons_self _ _
      rw [if_pos hm]
    · simp only [merge_loop, List.map_cons, if_neg hn]
      rw [merge_loop_map_name t new_md]
      by_cases hm : new_md.name ∈ t.map (fun e => e.name)
      · rw [if_pos hm, if_pos (List.mem_cons_of_mem _ hm)]
      · rw [if_neg hm]
        have hnot : new_md.name ∉ h.name :: t.map (fun e => e.name) := by
          intro hcon
          rcases List.mem_cons.mp hcon with hc | hc
          · exact hn hc.symm
          · exact hm hc
        rw [if_neg hnot]
        rfl

theorem merge_loop_mem_file :
    ∀ (dest_md : List ContainerMetadataEntry) (new_md : ContainerMetadataEntry),
      ∀ x ∈ merge_loop dest_md new_md, x.file = new_md.file ∨ ∃ y ∈ dest_md, x.file = y.file
  | [], new_md => by
    intro x hx
    simp only [merge_loop, List.mem_singleton] at hx
    exact Or.inl (by rw [hx])
  | h :: t, new_md => by
    intro x hx
    by_cases hn : h.name = new_md.name
    · simp only [merge_loop, if_pos hn, List.mem_cons] at hx
      rcases hx with hx | hx
      · exact Or.inr ⟨h, List.mem_cons_self h t, by rw [hx, merge_update_file]⟩
      · exact Or.inr ⟨x, List.mem_cons_of_mem _ hx, rfl⟩
    · simp only [merge_loop, if_neg hn, List.mem_cons] at hx
      rcases hx with hx | hx
      · exact Or.inr ⟨h, List.mem_cons_self h t, by rw [hx]⟩
      · rcases merge_loop_mem_file t new_md x hx with hy | ⟨y, hy, hyf⟩
        · exact Or.inl hy
        · exact Or.inr ⟨y, List.mem_cons_of_mem _ hy, hyf⟩

/-- C8: the merge preserves the ContainerMetadataList invariant (unique
entry names, and path-unique 'file' lists) whenever the destination list
satisfies it and the incoming entry's own 'file' list has no duplicate
paths. -/
theorem c8_merge_preserves_invariant (dest_md : List ContainerMetadataEntry)
    (new_md : ContainerMetadataEntry) (hinv : containerInv dest_md)
    (hnew : (new_md.file.map (fun f => f.path)).Nodup) :
    containerInv (merge_container_md dest_md new_md) := by
  cases dest_md with
  | nil =>
    have h1 : merge_container_md [] new_md = [new_md] := rfl
    rw [h1]
    refine ⟨by simp, ?_⟩
    intro e he
    rw [List.mem_singleton] at he
    rw [he]
    exact hnew
  | cons h t =>
    have h1 : merge_container_md (h :: t) new_md = merge_loop (h :: t) new_md := rfl
    rw [h1]
    constructor
    · rw [merge_loop_map_name (h :: t) new_md]
      by_cases hm : new_md.name ∈ (h :: t).map (fun e => e.name)
      · rw [if_pos hm]
        exact hinv.1
      · rw [if_neg hm]
        rw [List.nodup_append]
        refine ⟨hinv.1, List.nodup_singleton _, ?_⟩
        intro a ha hb
        rw [List.mem_singleton] at hb
        exact hm (hb ▸ ha)
    · intro e he
      rcases merge_loop_mem_file (h :: t) new_md e he with hf | ⟨y, hy, hyf⟩
      · rw [hf]
        exact hnew
      · rw [hyf]
        exact hinv.2 y hy

instance (md : List ContainerMetadataEntry) : Decidable (containerInv md) := by
  unfold containerInv
  infer_instance

/-- Destination entry for the C8 witness. -/
def c8_demo_dest : ContainerMetadataEntry :=
  prepare_container_md (fun _ => true) "plotclip" "1.0" "t0" "plot A" [] "rgb"
    "source1.tif" ["out/plot A/source1.tif"]

/-- Incoming entry for the C8 witness, carrying a fresh name. -/
def c8_demo_new : ContainerMetadataEntry :=
  prepare_container_md (fun _ => true) "plotclip" "1.0" "t1" "plot B" [] "rgb"
    "source1.tif" ["out/plot B/source1.tif"]

/-- Witness for C8 on a concrete one-entry list and a fresh incoming entry. -/
theorem c8_merge_preserves_invariant_witness :
    containerInv [c8_demo_dest]
    ∧ ((c8_demo_new.file.map (fun f => f.path)).Nodup)
    ∧ containerInv (merge_container_md [c8_demo_dest] c8_demo_new) :=
  ⟨by decide, by decide,
    c8_merge_preserves_invariant [c8_demo_dest] c8_demo_new (by decide) (by decide)⟩
